import Mathlib

/-!
Verification development for the schedule execution engine in tvplayer.py.

The embedding below translates the playback driver (play_video), the filler
break controller (run_filler_break), the override channel (check_for_override),
the path helpers (is_remote_path, os.path.join use sites) and the per-slot
playback decision of the scheduler loop (run_channel_day) into Lean.

Modelling conventions:
- Seconds are rationals.  Subprocess behaviour, wall-clock readings and the
  contents of signal files are supplied as explicit oracle parameters, since
  the Python code obtains them from the operating system.
- The polling loop in play_video observes a process exit at the exit time
  itself; the sub-second polling granularity (1 second sleep slices) is
  abstracted away.
- Logging calls are omitted: they do not influence control flow.
-/

/-- Minimum duration a video must have to be worth playing (tvplayer.py line 45). -/
def MIN_PLAYBACK_TIME : ℚ := 5

/-- Buffer added to max_runtime for the external timeout check (tvplayer.py line 70). -/
def VLC_TIMEOUT_BUFFER : ℚ := 5

/-- Path of the command-line VLC binary (tvplayer.py line 48). -/
def VLC_PATH : String := "cvlc"

/-- Baseline VLC arguments (tvplayer.py lines 49 to 54). -/
def VLC_ARGS : List String :=
  ["--no-video-title-show", "--play-and-exit", "--no-loop", "--fullscreen"]

/-- Flags specific to remote streaming (tvplayer.py lines 57 to 60). -/
def REMOTE_STREAMING_FLAGS : List String :=
  ["--network-caching", "5000", "--http-reconnect"]

/-- Character level lowercasing of a string, modelling str.lower as applied
here (the protocol prefixes under test are ascii). -/
def str_lower (s : String) : String :=
  String.mk (s.data.map Char.toLower)

/-- Prefix test on strings, modelling str.startswith. -/
def str_startsWith (s p : String) : Bool :=
  p.data.isPrefixOf s.data

/-- Suffix test on strings, modelling str.endswith. -/
def str_endsWith (s p : String) : Bool :=
  p.data.isSuffixOf s.data

/-- Translation of is_remote_path (tvplayer.py lines 113 to 115): a path is
remote exactly when its lowercased form starts with one of the three listed
protocol prefixes. -/
def is_remote_path (path : String) : Bool :=
  str_startsWith (str_lower path) ("http://")
    || str_startsWith (str_lower path) ("https://")
    || str_startsWith (str_lower path) ("ftp://")

/-- Model of the posix os.path.join as used on two arguments: an absolute
second component discards the first, otherwise the components are joined with
a single separator (none added when the first component already ends with one
or is empty). -/
def os_path_join (a b : String) : String :=
  if str_startsWith b ("/") then b
  else if a = "" then b
  else if str_endsWith a ("/") then a ++ b
  else a ++ ("/") ++ b

/-- Hexadecimal digit characters used by percent encoding (uppercase, as
produced by urllib.parse.quote). -/
def hexDigit (n : Nat) : Char :=
  if n < 10 then Char.ofNat (48 + n) else Char.ofNat (55 + n)

/-- Percent encoding of one byte value. -/
def percentByte (b : Nat) : List Char :=
  ['%', hexDigit (b / 16), hexDigit (b % 16)]

/-- UTF-8 byte values of a unicode code point. -/
def utf8Bytes (n : Nat) : List Nat :=
  if n < 128 then [n]
  else if n < 2048 then [192 + n / 64, 128 + n % 64]
  else if n < 65536 then [224 + n / 4096, 128 + (n / 64) % 64, 128 + n % 64]
  else [240 + n / 262144, 128 + (n / 4096) % 64, 128 + (n / 64) % 64, 128 + n % 64]

/-- Model of urllib.parse.quote on one character with the default safe set:
unreserved characters and the slash pass through, everything else is
percent encoded bytewise. -/
def url_quote_char (c : Char) : List Char :=
  if c.isAlpha || c.isDigit || c = '_' || c = '.' || c = '-' || c = '~' || c = '/' then [c]
  else ((utf8Bytes c.toNat).map percentByte).flatten

/-- Model of urllib.parse.quote with the default safe set. -/
def url_quote (s : String) : String :=
  String.mk ((s.toList.map url_quote_char).flatten)

/-- Splits a character list at the first slash, keeping the slash in the
second component (used to separate the network location from the path). -/
def splitAtSlash : List Char → (List Char × List Char)
  | [] => ([], [])
  | c :: cs =>
    if c = '/' then ([], c :: cs)
    else
      let p := splitAtSlash cs
      (c :: p.1, p.2)

/-- Splits a character list at the first query or fragment delimiter, keeping
the delimiter in the second component. -/
def splitAtQuery : List Char → (List Char × List Char)
  | [] => ([], [])
  | c :: cs =>
    if c = '?' || c = '#' then ([], c :: cs)
    else
      let p := splitAtQuery cs
      (c :: p.1, p.2)

/-- Splits a character list at the first occurrence of the scheme separator
colon slash slash, dropping the separator. -/
def splitScheme : List Char → Option (List Char × List Char)
  | [] => none
  | ':' :: '/' :: '/' :: rest => some ([], rest)
  | c :: cs =>
    match splitScheme cs with
    | none => none
    | some p => some (c :: p.1, p.2)

/-- Model of the url encoding performed in play_video (tvplayer.py lines 352
to 359): urlparse the remote url, percent encode its path component, and
reassemble.  Modelled for urls of the shape scheme://netloc/path, which is the
shape every remote path here has; any other string is returned unchanged, as
the except branch in the source does. -/
def encode_remote_url (url : String) : String :=
  match splitScheme url.data with
  | none => url
  | some schemeSplit =>
    let netlocSplit := splitAtSlash schemeSplit.2
    let pathSplit := splitAtQuery netlocSplit.2
    String.mk schemeSplit.1 ++ ("://") ++ String.mk netlocSplit.1
      ++ url_quote (String.mk pathSplit.1) ++ String.mk pathSplit.2

/-- Rendering of the f-string start-time flag built in play_video (tvplayer.py
lines 347 to 349); the fixed two decimal float formatting is abstracted to the
standard rendering of the rational. -/
def start_time_flag (startOffset : ℚ) : String :=
  ("--start-time=") ++ toString startOffset

/-- Command line built by play_video (tvplayer.py lines 339 to 361): the VLC
binary, the baseline arguments, the remote streaming flags exactly when the
path is remote, the start-time flag, and finally the path, percent encoded
exactly when remote. -/
def vlc_command (path : String) (startOffset : ℚ) : List String :=
  [VLC_PATH] ++ VLC_ARGS
    ++ (if is_remote_path path then REMOTE_STREAMING_FLAGS else [])
    ++ [start_time_flag startOffset]
    ++ [if is_remote_path path then encode_remote_url path else path]

/-- Video descriptor dictionary passed to play_video: a path and a nominal
duration (tvplayer.py lines 604 to 633). -/
structure VideoData where
  path : String
  duration : ℚ
deriving DecidableEq, Repr

/-- Oracle describing what the spawned VLC process would do: fail to spawn
(FileNotFoundError from Popen), exit on its own with a code at a given wall
time, or never exit on its own. -/
inductive ProcBehavior where
  | spawnFails
  | runsForever
  | exits (code : Int) (t : ℚ)
deriving DecidableEq, Repr

/-- Return value of play_video: a number of seconds, the override interrupted
sentinel (minus one in the source), or playback failure (None in the source). -/
inductive PlayResult where
  | ret (seconds : ℚ)
  | overrideInterrupted
  | failed
deriving DecidableEq, Repr

/-- Observable outcome of one play_video call.  The invoked field records
whether control reached the subprocess invocation (live mode only), killed
records whether the external timeout forcibly terminated the process, wallTime
is the wall-clock time the call consumed, and simAdvance is the amount the
simulated clock was advanced (dry-run mode only). -/
structure PlayOutcome where
  result : PlayResult
  simAdvance : ℚ
  invoked : Bool
  killed : Bool
  wallTime : ℚ
  command : List String
deriving DecidableEq, Repr

/-- Translation of play_video (tvplayer.py lines 307 to 440).  In dry-run mode
the call advances the simulated clock by max_runtime_seconds and returns
max_runtime_seconds without building a command (lines 329 to 335).  In live
mode the command is built, the process starts, and a polling loop waits until
the process exits or the external timeout max_runtime_seconds plus
VLC_TIMEOUT_BUFFER elapses, checking for an override before each sleep slice.
An override observed while the process is still running interrupts playback
(line 390); the wall time consumed by the override playback itself is outside
this model.  Hitting the external timeout terminates the process and returns
max_runtime_seconds (lines 402 to 409).  A self-exit with nonzero code returns
failure (lines 417 to 420); a clean exit returns the measured elapsed time for
filler and max_runtime_seconds for main content (lines 422 to 430). -/
def play_video (dryRun : Bool) (video : VideoData) (maxRuntimeSeconds : ℚ)
    (startOffset : ℚ) (isFiller : Bool) (proc : ProcBehavior)
    (overrideAt : Option ℚ) : PlayOutcome :=
  if dryRun then
    { result := .ret maxRuntimeSeconds, simAdvance := maxRuntimeSeconds,
      invoked := false, killed := false, wallTime := 0, command := [] }
  else
    let cmd := vlc_command video.path startOffset
    let externalTimeout := maxRuntimeSeconds + VLC_TIMEOUT_BUFFER
    match proc, overrideAt with
    | .spawnFails, _ =>
      { result := .failed, simAdvance := 0, invoked := true, killed := false,
        wallTime := 0, command := cmd }
    | .runsForever, some tOv =>
      if tOv < externalTimeout then
        { result := .overrideInterrupted, simAdvance := 0, invoked := true,
          killed := false, wallTime := tOv, command := cmd }
      else
        { result := .ret maxRuntimeSeconds, simAdvance := 0, invoked := true,
          killed := true, wallTime := externalTimeout, command := cmd }
    | .runsForever, none =>
      { result := .ret maxRuntimeSeconds, simAdvance := 0, invoked := true,
        killed := true, wallTime := externalTimeout, command := cmd }
    | .exits code t, some tOv =>
      if tOv < externalTimeout ∧ tOv < t then
        { result := .overrideInterrupted, simAdvance := 0, invoked := true,
          killed := false, wallTime := tOv, command := cmd }
      else if t < externalTimeout then
        if code = 0 then
          if isFiller then
            { result := .ret t, simAdvance := 0, invoked := true,
              killed := false, wallTime := t, command := cmd }
          else
            { result := .ret maxRuntimeSeconds, simAdvance := 0, invoked := true,
              killed := false, wallTime := t, command := cmd }
        else
          { result := .failed, simAdvance := 0, invoked := true,
            killed := false, wallTime := t, command := cmd }
      else
        { result := .ret maxRuntimeSeconds, simAdvance := 0, invoked := true,
          killed := true, wallTime := externalTimeout, command := cmd }
    | .exits code t, none =>
      if t < externalTimeout then
        if code = 0 then
          if isFiller then
            { result := .ret t, simAdvance := 0, invoked := true,
              killed := false, wallTime := t, command := cmd }
          else
            { result := .ret maxRuntimeSeconds, simAdvance := 0, invoked := true,
              killed := false, wallTime := t, command := cmd }
        else
          { result := .failed, simAdvance := 0, invoked := true,
            killed := false, wallTime := t, command := cmd }
      else
        { result := .ret maxRuntimeSeconds, simAdvance := 0, invoked := true,
          killed := true, wallTime := externalTimeout, command := cmd }

/-- One filler clip loaded from the manifest: a path and a duration
(tvplayer.py lines 198 to 216). -/
structure FillerClip where
  path : String
  duration : ℚ
deriving DecidableEq, Repr

/-- Resolution of a filler clip path before playback (tvplayer.py lines 274
to 282): remote and absolute paths are used directly, every other path is
joined to the content root of the channel. -/
def resolve_filler_path (contentRoot raw : String) : String :=
  if is_remote_path raw || str_startsWith raw ("/") then raw
  else os_path_join contentRoot raw

/-- Oracle for one iteration of the filler loop: whether the override check at
the top of the iteration fires, which manifest index random.choice picks, and
how the spawned process for the chosen clip behaves. -/
structure FillerStep where
  overrideBeforePlay : Bool
  choiceIndex : Nat
  proc : ProcBehavior
  overrideDuring : Option ℚ
deriving DecidableEq, Repr

/-- Record of one playback attempt made inside a filler break: the manifest
index chosen, the clip, the window remaining when the attempt started and the
maximum run time handed to play_video. -/
structure PlayRecord where
  clipIndex : Nat
  clip : FillerClip
  timeLeft : ℚ
  maxClipRunTime : ℚ
deriving DecidableEq, Repr

/-- Observable outcome of one run_filler_break call: whether an override
interrupted the break, the wall-clock seconds consumed, the simulated clock
advance (dry-run mode only), and the playback attempts made. -/
structure FillerResult where
  overridden : Bool
  wallConsumed : ℚ
  simAdvance : ℚ
  plays : List PlayRecord
deriving DecidableEq, Repr

/-- Translation of the playback loop of run_filler_break (tvplayer.py lines
255 to 304).  The state is the elapsed wall-clock time since the break
started; the loop runs while elapsed is below the requested duration, checks
for an override, stops once less than one second remains, then picks a clip
from the manifest by the oracle index (random.choice, with replacement),
plays it with a ceiling of the minimum of the clip duration and the remaining
time, adds a five second sleep after a failed playback, and propagates an
override interruption.  The oracle list bounds how many iterations are
observed. -/
def filler_loop (fillerList : List FillerClip) (contentRoot : String) (w : ℚ) :
    ℚ → List FillerStep → ℚ × Bool × List PlayRecord
  | elapsed, [] => (elapsed, false, [])
  | elapsed, step :: rest =>
    if w ≤ elapsed then (elapsed, false, [])
    else
      let timeLeft := w - elapsed
      if step.overrideBeforePlay then (elapsed, true, [])
      else if timeLeft < 1 then (elapsed, false, [])
      else
        let idx := step.choiceIndex % fillerList.length
        let clip := fillerList.getD idx ⟨"", 0⟩
        let maxClipRunTime := min clip.duration timeLeft
        let fullPath := resolve_filler_path contentRoot clip.path
        let outcome := play_video false ⟨fullPath, clip.duration⟩ maxClipRunTime 0 true
          step.proc step.overrideDuring
        let record := PlayRecord.mk idx clip timeLeft maxClipRunTime
        match outcome.result with
        | .overrideInterrupted => (elapsed + outcome.wallTime, true, [record])
        | .failed =>
          let tail := filler_loop fillerList contentRoot w (elapsed + outcome.wallTime + 5) rest
          (tail.1, tail.2.1, record :: tail.2.2)
        | .ret _ =>
          let tail := filler_loop fillerList contentRoot w (elapsed + outcome.wallTime) rest
          (tail.1, tail.2.1, record :: tail.2.2)

/-- Translation of run_filler_break (tvplayer.py lines 226 to 304), with the
manifest already loaded into a list (load_filler_videos_from_manifest returns
an empty list both for a missing manifest and for one that fails to parse).
Durations of at most one second are rejected before the manifest is consulted
(lines 235 to 237); an empty manifest list makes the call return immediately
(lines 241 to 243); dry-run mode advances the simulated clock by the whole
window and returns (lines 247 to 252); otherwise the playback loop runs. -/
def run_filler_break (dryRun : Bool) (fillerList : List FillerClip)
    (durationSeconds : ℚ) (contentRoot : String) (steps : List FillerStep) :
    FillerResult :=
  if durationSeconds ≤ 1 then ⟨false, 0, 0, []⟩
  else if fillerList.isEmpty then ⟨false, 0, 0, []⟩
  else if dryRun then ⟨false, 0, durationSeconds, []⟩
  else
    let r := filler_loop fillerList contentRoot durationSeconds 0 steps
    ⟨r.2.1, r.1, 0, r.2.2⟩

/-- State of the override signal file when check_for_override polls it, with
oracle flags for whether the read and the delete succeed. -/
inductive OverrideFileState where
  | absent
  | present (contents : String) (readOk : Bool) (deleteOk : Bool)
deriving DecidableEq, Repr

/-- Observable outcome of one check_for_override call: the returned boolean,
whether the requested override video was played, and whether the signal file
was removed from disk. -/
structure OverrideCheckOutcome where
  overrideTaken : Bool
  playedOverride : Bool
  fileRemoved : Bool
deriving DecidableEq, Repr

/-- Translation of check_for_override (tvplayer.py lines 442 to 491).  When
the file is absent the call returns False.  When it is present, the read and
the delete run inside one try block (lines 452 to 459): if either fails, the
error is logged and the call returns False so that normal playback continues;
the file is removed only when the read succeeded and the delete succeeded.
Only after both succeed is the current process terminated, the requested
video played, and True returned. -/
def check_for_override (st : OverrideFileState) : OverrideCheckOutcome :=
  match st with
  | .absent => ⟨false, false, false⟩
  | .present _ readOk deleteOk =>
    if readOk && deleteOk then ⟨true, true, true⟩
    else ⟨false, false, false⟩

/-- One schedule entry as consumed by run_channel_day: the parsed absolute
start time and total slot duration, the video descriptor and the filler
manifest reference (tvplayer.py lines 548 to 620). -/
structure Program where
  start_time : ℚ
  slot_duration_total : ℚ
  video_data : VideoData
  filler_xml_path : String
deriving DecidableEq, Repr

/-- What the scheduler loop decides to do for one slot (tvplayer.py lines 594
to 651): skip a slot with at most one second available, run a pure filler
break when the computed ceiling is below MIN_PLAYBACK_TIME, or play the main
video with a start offset and a run time ceiling. -/
inductive SlotAction where
  | skip
  | fillerOnly (window : ℚ)
  | playMain (startOffset maxRunTime window : ℚ)
deriving DecidableEq, Repr

/-- Translation of section B of the scheduler loop (tvplayer.py lines 594 to
651): the elapsed time into the slot is the current time minus the nominal
start of this slot, the available window is the total slot duration minus
that, slots with at most one second available are skipped, the start offset
is the constant zero (lines 607 to 610), and the run time ceiling is the
minimum of the full video duration and the available window (lines 612 to
616).  A ceiling below MIN_PLAYBACK_TIME routes to a pure filler break for
the available window (lines 637 to 641). -/
def slot_playback_decision (now : ℚ) (program : Program) : SlotAction :=
  let timeElapsedInSlot := now - program.start_time
  let timeAvailableSeconds := program.slot_duration_total - timeElapsedInSlot
  if timeAvailableSeconds ≤ 1 then .skip
  else
    let startOffset : ℚ := 0
    let maxRunTime := min program.video_data.duration timeAvailableSeconds
    if maxRunTime < MIN_PLAYBACK_TIME then .fillerOnly timeAvailableSeconds
    else .playMain startOffset maxRunTime timeAvailableSeconds

/-- Resolution of the main video path in run_channel_day (tvplayer.py lines
622 to 628): remote paths are used directly, every other path is joined to
the content root of the channel. -/
def resolve_video_path (contentRoot raw : String) : String :=
  if is_remote_path raw then raw
  else os_path_join contentRoot raw

/-- Characterisation of the playMain outcome of slot_playback_decision: when
the scheduler decides to play the main video, the start offset is the
constant zero and the ceiling is the minimum of the full video duration and
the window remaining in the slot, the window being measured from the nominal
start of this very slot. -/
lemma slot_playMain_eq (now : ℚ) (p : Program) (off mr w : ℚ)
    (h : slot_playback_decision now p = SlotAction.playMain off mr w) :
    off = 0 ∧ mr = min p.video_data.duration (p.slot_duration_total - (now - p.start_time)) ∧
      w = p.slot_duration_total - (now - p.start_time) := by
  simp only [slot_playback_decision] at h
  split at h
  · simp at h
  · split at h
    · simp at h
    · simp only [SlotAction.playMain.injEq] at h
      exact ⟨h.1.symm, h.2.1.symm, h.2.2.symm⟩

/-- The slot decision depends only on the lateness relative to the nominal
start of the slot under consideration, the total slot duration and the video
duration: the computation restarts fresh for every slot and carries no state
from earlier slots. -/
lemma slot_decision_congr (now₁ now₂ : ℚ) (p₁ p₂ : Program)
    (hrel : now₁ - p₁.start_time = now₂ - p₂.start_time)
    (hslot : p₁.slot_duration_total = p₂.slot_duration_total)
    (hdur : p₁.video_data.duration = p₂.video_data.duration) :
    slot_playback_decision now₁ p₁ = slot_playback_decision now₂ p₂ := by
  simp only [slot_playback_decision]
  rw [hrel, hslot, hdur]

/-- In live mode, play_video always reaches the subprocess invocation: there
is no branch that skips the player. -/
lemma play_video_live_invoked (video : VideoData) (m o : ℚ) (f : Bool)
    (proc : ProcBehavior) (ov : Option ℚ) :
    (play_video false video m o f proc ov).invoked = true := by
  cases proc <;> cases ov <;> simp [play_video] <;> split_ifs <;> rfl

/-- The return value of play_video does not depend on the start offset; the
offset only enters the command line handed to the player. -/
lemma play_video_result_offset_indep (video : VideoData) (m o₁ o₂ : ℚ) (f : Bool)
    (proc : ProcBehavior) (ov : Option ℚ) :
    (play_video false video m o₁ f proc ov).result
      = (play_video false video m o₂ f proc ov).result := by
  cases proc <;> cases ov <;> simp [play_video] <;> split_ifs <;> rfl

/-- The wall-clock time one live play_video call consumes is bounded by the
requested ceiling plus the external timeout buffer, since the polling loop
gives up and terminates the process at that point. -/
lemma play_video_wallTime_le (video : VideoData) (m o : ℚ) (f : Bool)
    (proc : ProcBehavior) (ov : Option ℚ) (hm : 0 ≤ m) :
    (play_video false video m o f proc ov).wallTime ≤ m + VLC_TIMEOUT_BUFFER := by
  have hb : (0 : ℚ) ≤ VLC_TIMEOUT_BUFFER := by norm_num [VLC_TIMEOUT_BUFFER]
  cases proc with
  | spawnFails => cases ov <;> simp [play_video] <;> linarith
  | runsForever =>
    cases ov with
    | none => simp [play_video]
    | some tOv =>
      simp only [play_video, Bool.false_eq_true, if_false]
      split_ifs with h1 <;> dsimp only <;> linarith
  | exits code t =>
    cases ov with
    | none =>
      simp only [play_video, Bool.false_eq_true, if_false]
      split_ifs with h1 h2 h3 <;> dsimp only <;> linarith
    | some tOv =>
      simp only [play_video, Bool.false_eq_true, if_false]
      split_ifs with h1 h2 h3 h4 <;> dsimp only <;> linarith

/-- A clip fetched from the manifest list by getD has a nonnegative duration
whenever all listed clips do (the fallback clip has duration zero). -/
lemma clip_getD_duration_nonneg (l : List FillerClip)
    (hdur : ∀ c ∈ l, 0 ≤ c.duration) (i : Nat) :
    0 ≤ (l.getD i ⟨"", 0⟩).duration := by
  rw [List.getD_eq_getElem?_getD]
  rcases h : l[i]? with _ | c
  · simp
  · obtain ⟨hlt, hGet⟩ := List.getElem?_eq_some_iff.mp h
    simpa [Option.getD_some, hGet] using hdur _ (hGet ▸ List.getElem_mem hlt)

/-- Invariant of the filler playback loop: starting from any elapsed time
below the bound, the elapsed time on exit stays below the window plus the
external timeout buffer plus the five second failure penalty, because each
iteration runs its clip for at most the remaining window (plus the buffer)
and charges at most five further seconds for a failure. -/
lemma filler_loop_wall_le (l : List FillerClip) (contentRoot : String) (w : ℚ)
    (hdur : ∀ c ∈ l, 0 ≤ c.duration) :
    ∀ (steps : List FillerStep) (elapsed : ℚ),
      elapsed ≤ w + (VLC_TIMEOUT_BUFFER + 5) →
      (filler_loop l contentRoot w elapsed steps).1 ≤ w + (VLC_TIMEOUT_BUFFER + 5) := by
  intro steps
  induction steps with
  | nil => intro e h; simpa [filler_loop] using h
  | cons step rest ih =>
    intro e h
    simp only [filler_loop]
    split_ifs with hW hOv hTL
    · simpa using h
    · simpa using h
    · simpa using h
    · have hTL1 : (1 : ℚ) ≤ w - e := not_lt.mp hTL
      have hclip : 0 ≤ (l.getD (step.choiceIndex % l.length) ⟨"", 0⟩).duration :=
        clip_getD_duration_nonneg l hdur _
      have hmin : (0 : ℚ) ≤ min (l.getD (step.choiceIndex % l.length) ⟨"", 0⟩).duration (w - e) :=
        le_min hclip (by linarith)
      have hwall := play_video_wallTime_le
        ⟨resolve_filler_path contentRoot (l.getD (step.choiceIndex % l.length) ⟨"", 0⟩).path,
          (l.getD (step.choiceIndex % l.length) ⟨"", 0⟩).duration⟩
        (min (l.getD (step.choiceIndex % l.length) ⟨"", 0⟩).duration (w - e)) 0 true
        step.proc step.overrideDuring hmin
      have hminle : min (l.getD (step.choiceIndex % l.length) ⟨"", 0⟩).duration (w - e) ≤ w - e :=
        min_le_right _ _
      have hb : (0 : ℚ) ≤ VLC_TIMEOUT_BUFFER := by norm_num [VLC_TIMEOUT_BUFFER]
      have hlt : ¬ w ≤ e := hW
      rcases hres : (play_video false
          ⟨resolve_filler_path contentRoot (l.getD (step.choiceIndex % l.length) ⟨"", 0⟩).path,
            (l.getD (step.choiceIndex % l.length) ⟨"", 0⟩).duration⟩
          (min (l.getD (step.choiceIndex % l.length) ⟨"", 0⟩).duration (w - e)) 0 true
          step.proc step.overrideDuring).result with t | _ | _ <;>
        simp only [hres]
      · exact ih _ (by push_neg at hlt; linarith)
      · push_neg at hlt; linarith
      · exact ih _ (by push_neg at hlt; linarith)

/-- Every playback attempt recorded by the filler loop was started with at
least one second of window remaining, with a ceiling equal to the minimum of
the clip duration and the remaining window, and with a clip drawn from the
manifest list by its recorded index. -/
lemma filler_loop_plays (l : List FillerClip) (contentRoot : String) (w : ℚ) :
    ∀ (steps : List FillerStep) (elapsed : ℚ),
      ∀ r ∈ (filler_loop l contentRoot w elapsed steps).2.2,
        r.maxClipRunTime = min r.clip.duration r.timeLeft ∧ 1 ≤ r.timeLeft ∧
        r.clip = l.getD r.clipIndex ⟨"", 0⟩ ∧ (l ≠ [] → r.clipIndex < l.length) := by
  intro steps
  induction steps with
  | nil => intro e r hr; simp [filler_loop] at hr
  | cons step rest ih =>
    intro e r hr
    simp only [filler_loop] at hr
    split_ifs at hr with hW hOv hTL
    · simp at hr
    · simp at hr
    · simp at hr
    · have hfields : r = PlayRecord.mk (step.choiceIndex % l.length)
          (l.getD (step.choiceIndex % l.length) ⟨"", 0⟩) (w - e)
          (min (l.getD (step.choiceIndex % l.length) ⟨"", 0⟩).duration (w - e)) →
          r.maxClipRunTime = min r.clip.duration r.timeLeft ∧ 1 ≤ r.timeLeft ∧
          r.clip = l.getD r.clipIndex ⟨"", 0⟩ ∧ (l ≠ [] → r.clipIndex < l.length) := by
        rintro rfl
        refine ⟨rfl, not_lt.mp hTL, rfl, fun hne => ?_⟩
        exact Nat.mod_lt _ (List.length_pos.mpr hne)
      rcases hres : (play_video false
          ⟨resolve_filler_path contentRoot (l.getD (step.choiceIndex % l.length) ⟨"", 0⟩).path,
            (l.getD (step.choiceIndex % l.length) ⟨"", 0⟩).duration⟩
          (min (l.getD (step.choiceIndex % l.length) ⟨"", 0⟩).duration (w - e)) 0 true
          step.proc step.overrideDuring).result with t | _ | _ <;>
        simp only [hres, List.mem_cons, List.mem_singleton] at hr
      · rcases hr with hr | hr
        · exact hfields hr
        · exact ih _ r hr
      · rcases hr with hr | hr
        · exact hfields hr
        · simp at hr
      · rcases hr with hr | hr
        · exact hfields hr
        · exact ih _ r hr

/-- Claim C1 is false on the code at a concrete input: with a slot starting
at time 0 of total duration 600 holding a video of duration 30, and the first
evaluation happening 47 seconds late, the claimed jump-in behaviour would
start the video at offset 47 mod 30 = 17 with ceiling min (30 - 17) 553 = 13;
the scheduler loop instead always uses offset 0 with ceiling
min 30 553 = 30 (tvplayer.py lines 607 to 616). -/
theorem c1_jump_in_counterexample :
    slot_playback_decision 47 ⟨0, 600, ⟨"show.mp4", 30⟩, "ads/default_ads.xml"⟩
      = SlotAction.playMain 0 30 553 ∧
    slot_playback_decision 47 ⟨0, 600, ⟨"show.mp4", 30⟩, "ads/default_ads.xml"⟩
      ≠ SlotAction.playMain 17 13 553 := by
  constructor <;> norm_num [slot_playback_decision, MIN_PLAYBACK_TIME]

/-- Claim C1 (amended): for every late segment, including the first segment
evaluated after an engine (re)start, the scheduler starts the main video at
offset 0 (no jump-in offset is applied) and caps the run time at the lesser
of the full video duration and the remaining slot window. -/
theorem c1_first_late_segment_starts_at_zero (now : ℚ) (p : Program) (off mr w : ℚ)
    (hlate : 0 < now - p.start_time)
    (h : slot_playback_decision now p = SlotAction.playMain off mr w) :
    off = 0 ∧ mr = min p.video_data.duration (p.slot_duration_total - (now - p.start_time)) :=
  ⟨(slot_playMain_eq now p off mr w h).1, (slot_playMain_eq now p off mr w h).2.1⟩

/-- Claim C1 witness: the amended theorem applied to the 47 seconds late
first segment of the counterexample. -/
theorem c1_first_late_segment_starts_at_zero_witness :
    ((0 : ℚ) < 47 - 0 ∧
      slot_playback_decision 47 ⟨0, 600, ⟨"show.mp4", 30⟩, "ads/default_ads.xml"⟩
        = SlotAction.playMain 0 30 553) ∧
    ((0 : ℚ) = 0 ∧ (30 : ℚ) = min 30 (600 - (47 - 0))) :=
  ⟨⟨by norm_num, by norm_num [slot_playback_decision, MIN_PLAYBACK_TIME]⟩,
    c1_first_late_segment_starts_at_zero 47 ⟨0, 600, ⟨"show.mp4", 30⟩, "ads/default_ads.xml"⟩
      0 30 553 (by norm_num) (by norm_num [slot_playback_decision, MIN_PLAYBACK_TIME])⟩

/-- Claim C2: a subsequent segment reached late starts its content from
offset 0 regardless of lateness; the available window is the slot duration
minus the lateness computed fresh from the nominal start of this very slot;
and any other slot with the same relative lateness, slot duration and video
duration receives the identical decision, so lateness does not compound
across slots. -/
theorem c2_subsequent_segment_drift (now now₂ : ℚ) (p p₂ : Program) (off mr w : ℚ)
    (hlate : 0 < now - p.start_time)
    (hplay : slot_playback_decision now p = SlotAction.playMain off mr w)
    (hrel : now - p.start_time = now₂ - p₂.start_time)
    (hslot : p.slot_duration_total = p₂.slot_duration_total)
    (hdur : p.video_data.duration = p₂.video_data.duration) :
    off = 0 ∧ mr = min p.video_data.duration (p.slot_duration_total - (now - p.start_time)) ∧
      w = p.slot_duration_total - (now - p.start_time) ∧
      slot_playback_decision now₂ p₂ = SlotAction.playMain off mr w := by
  obtain ⟨h1, h2, h3⟩ := slot_playMain_eq now p off mr w hplay
  exact ⟨h1, h2, h3, (slot_decision_congr now now₂ p p₂ hrel hslot hdur).symm.trans hplay⟩

/-- Claim C2 witness: two consecutive main segments, the second reached 40
seconds late after the first overran; the second starts at offset 0 and its
decision is computed fresh from its own nominal start at 1000. -/
theorem c2_subsequent_segment_drift_witness :
    ((0 : ℚ) < 40 - 0 ∧
      slot_playback_decision 40 ⟨0, 600, ⟨"ep1.mp4", 30⟩, "ads.xml"⟩
        = SlotAction.playMain 0 30 560 ∧
      (40 : ℚ) - 0 = 1040 - 1000 ∧ (600 : ℚ) = 600 ∧ (30 : ℚ) = 30) ∧
    ((0 : ℚ) = 0 ∧ (30 : ℚ) = min 30 (600 - (40 - 0)) ∧ (560 : ℚ) = 600 - (40 - 0) ∧
      slot_playback_decision 1040 ⟨1000, 600, ⟨"ep2.mp4", 30⟩, "ads.xml"⟩
        = SlotAction.playMain 0 30 560) :=
  ⟨⟨by norm_num, by norm_num [slot_playback_decision, MIN_PLAYBACK_TIME], by norm_num, rfl, rfl⟩,
    c2_subsequent_segment_drift 40 1040 ⟨0, 600, ⟨"ep1.mp4", 30⟩, "ads.xml"⟩
      ⟨1000, 600, ⟨"ep2.mp4", 30⟩, "ads.xml"⟩ 0 30 560 (by norm_num)
      (by norm_num [slot_playback_decision, MIN_PLAYBACK_TIME]) (by norm_num) rfl rfl⟩

/-- Claim C3: when the player process exits on its own with code 0 before the
external timeout ceiling and no override fires, play_video returns the full
requested max_runtime_seconds for primary content and the measured elapsed
time for filler content. -/
theorem c3_clean_exit_consumption (video : VideoData) (maxRuntimeSeconds startOffset t : ℚ)
    (isFiller : Bool) (hceil : t < maxRuntimeSeconds + VLC_TIMEOUT_BUFFER) :
    (play_video false video maxRuntimeSeconds startOffset isFiller
        (ProcBehavior.exits 0 t) none).result
      = PlayResult.ret (if isFiller then t else maxRuntimeSeconds) := by
  cases isFiller <;> simp [play_video, hceil]

/-- Claim C3 witness: a filler clip whose process exits cleanly after 3
seconds against a 60 second ceiling returns the measured 3 seconds. -/
theorem c3_clean_exit_consumption_witness :
    ((3 : ℚ) < 60 + VLC_TIMEOUT_BUFFER) ∧
    (play_video false ⟨"clip.mp4", 10⟩ 60 0 true (ProcBehavior.exits 0 3) none).result
      = PlayResult.ret 3 :=
  ⟨by norm_num [VLC_TIMEOUT_BUFFER],
    c3_clean_exit_consumption ⟨"clip.mp4", 10⟩ 60 0 3 true (by norm_num [VLC_TIMEOUT_BUFFER])⟩

/-- Claim C4: when the process has not exited by max_runtime_seconds plus the
fixed VLC_TIMEOUT_BUFFER grace (it never exits, or exits only at or after the
ceiling), play_video forcibly terminates it and returns exactly
max_runtime_seconds as the time consumed. -/
theorem c4_timeout_full_consumption (video : VideoData) (maxRuntimeSeconds startOffset : ℚ)
    (isFiller : Bool) (proc : ProcBehavior)
    (h : proc = ProcBehavior.runsForever ∨
      ∃ code t, proc = ProcBehavior.exits code t ∧ maxRuntimeSeconds + VLC_TIMEOUT_BUFFER ≤ t) :
    (play_video false video maxRuntimeSeconds startOffset isFiller proc none).result
        = PlayResult.ret maxRuntimeSeconds ∧
    (play_video false video maxRuntimeSeconds startOffset isFiller proc none).killed = true := by
  rcases h with h | ⟨code, t, rfl, ht⟩
  · subst h; constructor <;> simp [play_video]
  · constructor <;> simp [play_video, not_lt.mpr ht]

/-- Claim C4 witness: a 30 second playback call against content that never
exits on its own is killed and reported as 30 seconds consumed. -/
theorem c4_timeout_full_consumption_witness :
    (ProcBehavior.runsForever = ProcBehavior.runsForever ∨
      ∃ code t, ProcBehavior.runsForever = ProcBehavior.exits code t ∧
        (30 : ℚ) + VLC_TIMEOUT_BUFFER ≤ t) ∧
    ((play_video false ⟨"loop.mp4", 1800⟩ 30 0 false ProcBehavior.runsForever none).result
        = PlayResult.ret 30 ∧
      (play_video false ⟨"loop.mp4", 1800⟩ 30 0 false ProcBehavior.runsForever none).killed
        = true) :=
  ⟨Or.inl rfl,
    c4_timeout_full_consumption ⟨"loop.mp4", 1800⟩ 30 0 false ProcBehavior.runsForever (Or.inl rfl)⟩

/-- Claim C5: for a live filler break over a non-empty manifest with no
override firing, the wall-clock time consumed (the five second penalty for
each failed clip included) never exceeds the requested window plus the fixed
epsilon VLC_TIMEOUT_BUFFER + 5; every playback attempt is made with at least
one second of window remaining (the loop stops below that threshold), with a
ceiling equal to the minimum of the clip duration and the remaining window,
and with a clip drawn (with replacement) from the manifest by index. -/
theorem c5_filler_window_invariant (fillerList : List FillerClip) (w : ℚ)
    (contentRoot : String) (steps : List FillerStep)
    (hw : 0 ≤ w) (hne : fillerList ≠ [])
    (hdur : ∀ c ∈ fillerList, 0 ≤ c.duration)
    (hnoov : ∀ s ∈ steps, s.overrideBeforePlay = false ∧ s.overrideDuring = none) :
    (run_filler_break false fillerList w contentRoot steps).wallConsumed
        ≤ w + (VLC_TIMEOUT_BUFFER + 5) ∧
    ∀ r ∈ (run_filler_break false fillerList w contentRoot steps).plays,
      r.maxClipRunTime = min r.clip.duration r.timeLeft ∧ 1 ≤ r.timeLeft ∧
      r.clip = fillerList.getD r.clipIndex ⟨"", 0⟩ ∧ r.clipIndex < fillerList.length := by
  have hb : (0 : ℚ) ≤ VLC_TIMEOUT_BUFFER := by norm_num [VLC_TIMEOUT_BUFFER]
  unfold run_filler_break
  split_ifs with h1 h2 h3
  · exact ⟨by dsimp only; linarith, by simp⟩
  · exact absurd (List.isEmpty_iff.mp h2) hne
  · exact absurd h3 (by simp)
  · refine ⟨?_, ?_⟩
    · show (filler_loop fillerList contentRoot w 0 steps).1 ≤ _
      exact filler_loop_wall_le fillerList contentRoot w hdur steps 0 (by linarith)
    · intro r hr
      have hr2 : r ∈ (filler_loop fillerList contentRoot w 0 steps).2.2 := hr
      obtain ⟨ha, hb2, hc, hd⟩ := filler_loop_plays fillerList contentRoot w steps 0 r hr2
      exact ⟨ha, hb2, hc, hd hne⟩

/-- Claim C5 witness: a 7 second break over a one-clip manifest with three
successful 3 second iterations obeys the window bound and the per-attempt
invariants. -/
theorem c5_filler_window_invariant_witness :
    ((0 : ℚ) ≤ 7 ∧ ([⟨"clip.mp4", 3⟩] : List FillerClip) ≠ [] ∧
      (∀ c ∈ ([⟨"clip.mp4", 3⟩] : List FillerClip), 0 ≤ c.duration) ∧
      (∀ s ∈ ([⟨false, 0, ProcBehavior.exits 0 3, none⟩, ⟨false, 0, ProcBehavior.exits 0 3, none⟩,
          ⟨false, 0, ProcBehavior.exits 0 3, none⟩] : List FillerStep),
        s.overrideBeforePlay = false ∧ s.overrideDuring = none)) ∧
    ((run_filler_break false [⟨"clip.mp4", 3⟩] 7 ("")
        [⟨false, 0, ProcBehavior.exits 0 3, none⟩, ⟨false, 0, ProcBehavior.exits 0 3, none⟩,
          ⟨false, 0, ProcBehavior.exits 0 3, none⟩]).wallConsumed
        ≤ 7 + (VLC_TIMEOUT_BUFFER + 5) ∧
      ∀ r ∈ (run_filler_break false [⟨"clip.mp4", 3⟩] 7 ("")
          [⟨false, 0, ProcBehavior.exits 0 3, none⟩, ⟨false, 0, ProcBehavior.exits 0 3, none⟩,
            ⟨false, 0, ProcBehavior.exits 0 3, none⟩]).plays,
        r.maxClipRunTime = min r.clip.duration r.timeLeft ∧ 1 ≤ r.timeLeft ∧
        r.clip = ([⟨"clip.mp4", 3⟩] : List FillerClip).getD r.clipIndex ⟨"", 0⟩ ∧
        r.clipIndex < ([⟨"clip.mp4", 3⟩] : List FillerClip).length) :=
  ⟨⟨by norm_num, by simp, by decide, by decide⟩,
    c5_filler_window_invariant [⟨"clip.mp4", 3⟩] 7 ("")
      [⟨false, 0, ProcBehavior.exits 0 3, none⟩, ⟨false, 0, ProcBehavior.exits 0 3, none⟩,
        ⟨false, 0, ProcBehavior.exits 0 3, none⟩]
      (by norm_num) (by simp) (by decide) (by decide)⟩

/-- Claim C6 is false on the code at a concrete input: a 10 second break over
an empty manifest consumes 0 seconds, not the claimed exact 10, because
run_filler_break returns immediately when the manifest list is empty
(tvplayer.py lines 241 to 243). -/
theorem c6_empty_manifest_counterexample :
    run_filler_break false [] 10 ("") [] = ⟨false, 0, 0, []⟩ ∧ (0 : ℚ) ≠ 10 :=
  ⟨by decide, by norm_num⟩

/-- Claim C6 (amended): for every window above the one second minimum, an
empty (or unloadable) filler manifest makes run_filler_break return
immediately with no playback attempt, no wall-clock wait and no simulated
clock advance; the call does not fail, it just skips the break. -/
theorem c6_empty_manifest_returns_immediately (dryRun : Bool) (w : ℚ)
    (contentRoot : String) (steps : List FillerStep) (hw : 1 < w) :
    run_filler_break dryRun [] w contentRoot steps = ⟨false, 0, 0, []⟩ := by
  have h1 : ¬ w ≤ 1 := not_le.mpr hw
  simp [run_filler_break, h1]

/-- Claim C6 witness: the amended theorem applied to a 10 second window in
dry-run mode. -/
theorem c6_empty_manifest_returns_immediately_witness :
    ((1 : ℚ) < 10) ∧ run_filler_break true [] 10 ("") [] = ⟨false, 0, 0, []⟩ :=
  ⟨by norm_num, c6_empty_manifest_returns_immediately true 10 ("") [] (by norm_num)⟩

/-- Claim C7 is false on the code at a concrete input: a live call with start
offset 10 equal to the content duration 10 still invokes the player and, with
the process exiting cleanly, returns the full 60 second ceiling rather than
an immediate skip with zero run time; play_video has no offset versus
duration guard (tvplayer.py lines 307 to 361). -/
theorem c7_offset_skip_counterexample :
    (10 : ℚ) ≤ 10 ∧
    (play_video false ⟨"show.mp4", 10⟩ 60 10 false (ProcBehavior.exits 0 3) none).invoked = true ∧
    (play_video false ⟨"show.mp4", 10⟩ 60 10 false (ProcBehavior.exits 0 3) none).result
      = PlayResult.ret 60 ∧
    PlayResult.ret 60 ≠ PlayResult.ret 0 := by
  refine ⟨le_refl _, ?_, ?_, by norm_num⟩ <;>
    norm_num [play_video, VLC_TIMEOUT_BUFFER]

/-- Claim C7 (amended): play_video applies no guard on the start offset: even
when the offset is at or beyond the content duration, the live call still
invokes the external player, and its result is identical to the result of
the same call with offset 0 (the offset only changes the command line). -/
theorem c7_no_offset_guard (video : VideoData) (maxRuntimeSeconds startOffset : ℚ)
    (isFiller : Bool) (proc : ProcBehavior) (overrideAt : Option ℚ)
    (hoff : video.duration ≤ startOffset) :
    (play_video false video maxRuntimeSeconds startOffset isFiller proc overrideAt).invoked
        = true ∧
    (play_video false video maxRuntimeSeconds startOffset isFiller proc overrideAt).result
      = (play_video false video maxRuntimeSeconds 0 isFiller proc overrideAt).result :=
  ⟨play_video_live_invoked video maxRuntimeSeconds startOffset isFiller proc overrideAt,
    play_video_result_offset_indep video maxRuntimeSeconds startOffset 0 isFiller proc overrideAt⟩

/-- Claim C7 witness: the amended theorem applied to an offset equal to the
content duration. -/
theorem c7_no_offset_guard_witness :
    ((10 : ℚ) ≤ 10) ∧
    ((play_video false ⟨"show.mp4", 10⟩ 60 10 false (ProcBehavior.exits 0 3) none).invoked
        = true ∧
      (play_video false ⟨"show.mp4", 10⟩ 60 10 false (ProcBehavior.exits 0 3) none).result
        = (play_video false ⟨"show.mp4", 10⟩ 60 0 false (ProcBehavior.exits 0 3) none).result) :=
  ⟨le_refl _,
    c7_no_offset_guard ⟨"show.mp4", 10⟩ 60 10 false (ProcBehavior.exits 0 3) none (le_refl _)⟩

/-- Claim C8 is false on the code at a concrete input: when the override file
is present, the read succeeds and the delete fails, check_for_override does
not honor the request (it returns False, plays nothing) and leaves the file
on disk, so the same content is seen again by a later poll (tvplayer.py lines
452 to 459). -/
theorem c8_delete_failure_counterexample :
    (check_for_override (OverrideFileState.present ("video.mp4") true false)).overrideTaken
        = false ∧
    (check_for_override (OverrideFileState.present ("video.mp4") true false)).playedOverride
        = false ∧
    ¬ (check_for_override (OverrideFileState.present ("video.mp4") true false)).overrideTaken
        = true ∧
    (check_for_override (OverrideFileState.present ("video.mp4") true false)).fileRemoved
        = false :=
  ⟨rfl, rfl, by simp [check_for_override], rfl⟩

/-- Claim C8 (amended): when deleting (or reading) the detected override file
fails, the request is NOT honored for the current poll cycle: the failure is
logged, check_for_override returns False without playing the requested video
and normal playback continues; because the file was not removed, a later
poll on which read and delete succeed fires the very same content. -/
theorem c8_delete_failure_not_honored (contents : String) :
    check_for_override (OverrideFileState.present contents true false)
        = ⟨false, false, false⟩ ∧
    check_for_override (OverrideFileState.present contents true true)
        = ⟨true, true, true⟩ :=
  ⟨rfl, rfl⟩

/-- Claim C9: in dry-run mode, play_video always returns exactly
max_runtime_seconds and advances the simulated clock by exactly
max_runtime_seconds, whatever the process or override oracle would have done;
the failure, timeout kill and override interrupted outcomes are unreachable,
so a simulated day never exercises any failure recovery path. -/
theorem c9_dry_run_play_video (video : VideoData) (maxRuntimeSeconds startOffset : ℚ)
    (isFiller : Bool) (proc : ProcBehavior) (overrideAt : Option ℚ) :
    play_video true video maxRuntimeSeconds startOffset isFiller proc overrideAt =
      { result := PlayResult.ret maxRuntimeSeconds, simAdvance := maxRuntimeSeconds,
        invoked := false, killed := false, wallTime := 0, command := [] } := rfl

/-- Claim C10 is false on the code at a concrete input: the relative path
video.mp4 is classified as local, but joined to the content root
http://server it produces http://server/video.mp4, which play_video then
treats as remote and plays with the remote streaming flags, so the clause
that a locally classified path is played without remote transport flags
fails for a remote looking content root. -/
theorem c10_remote_root_counterexample :
    is_remote_path ("video.mp4") = false ∧
    resolve_video_path ("http://server") ("video.mp4") = ("http://server/video.mp4") ∧
    ("--http-reconnect") ∈ vlc_command (resolve_video_path ("http://server") ("video.mp4")) 0 ∧
    ("--http-reconnect") ∉ VLC_ARGS :=
  ⟨by decide, by decide, by decide, by decide⟩

/-- Claim C10 (amended): is_remote_path holds exactly when the lowercased
path starts with http://, https:// or ftp:// (so rtsp:// URLs are local);
every locally classified path is joined to the channel content root; and the
built player command carries no remote streaming flags and no percent
encoding whenever the joined path is itself non-remote, which is the case
for every content root that does not itself look remote. -/
theorem c10_remote_classification (contentRoot p : String) (startOffset : ℚ) :
    (is_remote_path p =
      (str_startsWith (str_lower p) ("http://") || str_startsWith (str_lower p) ("https://")
        || str_startsWith (str_lower p) ("ftp://"))) ∧
    (is_remote_path p = false → resolve_video_path contentRoot p = os_path_join contentRoot p) ∧
    (is_remote_path (resolve_video_path contentRoot p) = false →
      vlc_command (resolve_video_path contentRoot p) startOffset =
        [VLC_PATH] ++ VLC_ARGS ++ [start_time_flag startOffset, resolve_video_path contentRoot p]) ∧
    is_remote_path ("rtsp://host/stream") = false := by
  refine ⟨rfl, fun h => ?_, fun h => ?_, by decide⟩
  · simp [resolve_video_path, h]
  · simp [vlc_command, h]

/-- Claim C10 witness: the amended theorem applied to an rtsp url under a
local content root: it is classified local, joined to the root, and played
without remote flags or encoding. -/
theorem c10_remote_classification_witness :
    is_remote_path ("rtsp://host/stream") = false ∧
    resolve_video_path ("/content") ("rtsp://host/stream")
        = os_path_join ("/content") ("rtsp://host/stream") ∧
    vlc_command (resolve_video_path ("/content") ("rtsp://host/stream")) 0 =
      [VLC_PATH] ++ VLC_ARGS
        ++ [start_time_flag 0, resolve_video_path ("/content") ("rtsp://host/stream")] :=
  ⟨(c10_remote_classification ("/content") ("rtsp://host/stream") 0).2.2.2,
    (c10_remote_classification ("/content") ("rtsp://host/stream") 0).2.1 (by decide),
    (c10_remote_classification ("/content") ("rtsp://host/stream") 0).2.2.1 (by decide)⟩
